import Mathlib

/-!
Shallow embedding of the Wattle Range Council development-application scraper
(PDF table-reconstruction and field-normalization engine).

Numbers are modelled as rationals (`ℚ`).  JavaScript division is total on
rationals except for division by zero, which JavaScript maps to `NaN`/`±Infinity`;
where a claim depends on that behaviour the result type `JSNum` makes it explicit.
JavaScript string primitives (`split`, `replace`, `trim`, `join`, ...) are
modelled by fuel-based structurally recursive functions on `List Char` so that
they evaluate inside the kernel.
-/

namespace Scraper

/-- A bounding rectangle (interface `Rectangle` of `scraper.ts`). -/
structure Rectangle where
  x : ℚ
  y : ℚ
  width : ℚ
  height : ℚ
deriving DecidableEq

/-- A 2D point (interface `Point` of `scraper.ts`). -/
structure Point where
  x : ℚ
  y : ℚ
deriving DecidableEq

/-- An element: a positioned run of text (interface `Element`). -/
structure Element where
  text : String
  x : ℚ
  y : ℚ
  width : ℚ
  height : ℚ
deriving DecidableEq

/-- A cell in the reconstructed grid, owning zero or more elements (interface `Cell`). -/
structure Cell where
  x : ℚ
  y : ℚ
  width : ℚ
  height : ℚ
  elements : List Element
deriving DecidableEq

/-- The rectangle part of an element. -/
def Element.toRect (e : Element) : Rectangle :=
  ⟨e.x, e.y, e.width, e.height⟩

/-- The rectangle part of a cell. -/
def Cell.toRect (c : Cell) : Rectangle :=
  ⟨c.x, c.y, c.width, c.height⟩

/-- `intersect` of `scraper.ts` lines 115-124: the overlapping rectangle of two
rectangles, or the zero rectangle when they are disjoint. -/
def intersect (rectangle1 rectangle2 : Rectangle) : Rectangle :=
  let x1 := max rectangle1.x rectangle2.x
  let y1 := max rectangle1.y rectangle2.y
  let x2 := min (rectangle1.x + rectangle1.width) (rectangle2.x + rectangle2.width)
  let y2 := min (rectangle1.y + rectangle1.height) (rectangle2.y + rectangle2.height)
  if x2 ≥ x1 ∧ y2 ≥ y1 then ⟨x1, y1, x2 - x1, y2 - y1⟩ else ⟨0, 0, 0, 0⟩

/-- `contains` of `scraper.ts` lines 128-133: whether `containerRectangle`
completely contains `containedRectangle` (inclusive on all four edges). -/
def contains (containerRectangle containedRectangle : Rectangle) : Bool :=
  decide (containerRectangle.x ≤ containedRectangle.x ∧
    containerRectangle.y ≤ containedRectangle.y ∧
    containerRectangle.x + containerRectangle.width ≥
      containedRectangle.x + containedRectangle.width ∧
    containerRectangle.y + containerRectangle.height ≥
      containedRectangle.y + containedRectangle.height)

/-- `getArea` of `scraper.ts` lines 137-139. -/
def getArea (rectangle : Rectangle) : ℚ :=
  rectangle.width * rectangle.height

/-- A JavaScript number resulting from a division: either an ordinary (rational)
number, or one of the non-finite values JavaScript produces on division by zero. -/
inductive JSNum where
  | num (q : ℚ)
  | nan
  | posInf
  | negInf
deriving DecidableEq

/-- JavaScript division: division by zero yields `NaN` (for `0/0`) or `±Infinity`. -/
def jsDiv (a b : ℚ) : JSNum :=
  if b = 0 then (if a = 0 then JSNum.nan else if a > 0 then JSNum.posInf else JSNum.negInf)
  else JSNum.num (a / b)

/-- `getVerticalOverlapPercentage` of `scraper.ts` lines 161-165: percentage of
vertical overlap, normalized by the second rectangle's height.  The division is
JavaScript division, so a zero height of the second rectangle can produce `NaN`. -/
def getVerticalOverlapPercentage (element1 element2 : Rectangle) : JSNum :=
  let y1 := max element1.y element2.y
  let y2 := min (element1.y + element1.height) (element2.y + element2.height)
  if y2 < y1 then JSNum.num 0 else jsDiv ((y2 - y1) * 100) element2.height

/-- `getHorizontalOverlapPercentage` of `scraper.ts` lines 170-187 (defined case:
both arguments present).  The guard returns `0` before the division whenever either
width is `0`, so for rectangles with non-negative widths the denominator of the
division is non-zero and plain rational division coincides with JavaScript division. -/
def getHorizontalOverlapPercentage (rectangle1 rectangle2 : Rectangle) : ℚ :=
  let startX1 := rectangle1.x
  let endX1 := rectangle1.x + rectangle1.width
  let startX2 := rectangle2.x
  let endX2 := rectangle2.x + rectangle2.width
  if startX1 ≥ endX2 ∨ endX1 ≤ startX2 ∨ rectangle1.width = 0 ∨ rectangle2.width = 0 then 0
  else
    let intersectionWidth := min endX1 endX2 - max startX1 startX2
    let unionWidth := max endX1 endX2 - min startX1 startX2
    (intersectionWidth * 100) / unionWidth

/-- `getHorizontalOverlapPercentage` including the `undefined` guard of lines 171-172:
if either argument is absent the result is `0`. -/
def getHorizontalOverlapPercentageOpt : Option Rectangle → Option Rectangle → ℚ
  | some rectangle1, some rectangle2 => getHorizontalOverlapPercentage rectangle1 rectangle2
  | _, _ => 0

/-- Squared Euclidean distance between two points, as written in
`parseCells` (`(p.x - q.x) ** 2 + (p.y - q.y) ** 2`). -/
def sqDist (p q : Point) : ℚ :=
  (p.x - q.x) * (p.x - q.x) + (p.y - q.y) * (p.y - q.y)

/-- The line filter of `parseCells` (part_000 line 416): discard thick lines and
short marks, keep only line-like rectangles. -/
def keepLine (line : Rectangle) : Bool :=
  !(decide ((line.width > 2 ∧ line.height > 2) ∨ (line.width ≤ 2 ∧ line.height < 10) ∨
    (line.height ≤ 2 ∧ line.width < 10)))

/-- Point insertion of `parseCells` (part_000 lines 419-420, 426-427): a point is
appended only if no already-present point lies within squared distance `1` of it. -/
def insertPoint (points : List Point) (p : Point) : List Point :=
  if points.any (fun point => decide (sqDist p point < 1)) then points else points ++ [p]

/-- The body of the `for (let line of lines)` loop of the point-grid builder
(part_000 lines 413-428): insert the line's start point, then its end point (the
far end in X for a horizontal line, in Y for a vertical line). -/
def buildStep (points : List Point) (line : Rectangle) : List Point :=
  let startPoint : Point := ⟨line.x, line.y⟩
  let points1 := insertPoint points startPoint
  let endPoint : Point :=
    if line.height ≤ 2 then ⟨line.x + line.width, line.y⟩
    else ⟨line.x, line.y + line.height⟩
  insertPoint points1 endPoint

/-- The point-grid builder of `parseCells` (part_000 lines 412-428): convert the
retained lines into a deduplicated grid of points. -/
def buildPoints (lines : List Rectangle) : List Point :=
  (lines.filter keepLine).foldl buildStep []

/-- The `reduce` of part_000 line 434: the closest point strictly to the right of
`point` with approximately (within `1`) the same Y co-ordinate. -/
def closestRightPoint (points : List Point) (point : Point) : Option Point :=
  points.foldl
    (fun previous current =>
      if decide (|current.y - point.y| < 1) && decide (current.x > point.x) &&
          (match previous with
           | none => true
           | some previous => decide (current.x - point.x < previous.x - point.x)) then
        some current
      else previous)
    none

/-- The `reduce` of part_000 line 437: the closest point strictly below `point`
with approximately (within `1`) the same X co-ordinate. -/
def closestDownPoint (points : List Point) (point : Point) : Option Point :=
  points.foldl
    (fun previous current =>
      if decide (|current.x - point.x| < 1) && decide (current.y > point.y) &&
          (match previous with
           | none => true
           | some previous => decide (current.y - point.y < previous.y - point.y)) then
        some current
      else previous)
    none

/-- Ordered insert used to model JavaScript's stable `Array.prototype.sort`. -/
def ordInsert (le : α → α → Bool) (x : α) : List α → List α
  | [] => [x]
  | y :: ys => if le x y then x :: y :: ys else y :: ordInsert le x ys

/-- Stable insertion sort, modelling JavaScript's stable `Array.prototype.sort`
with comparator `le` (`le a b` means the comparator does not order `a` after `b`). -/
def jsSortBy (le : α → α → Bool) (l : List α) : List α :=
  l.foldr (ordInsert le) []

/-- The cell comparator of part_000 line 443 (sort by approximate Y, then X),
rendered as a `le` predicate. -/
def cellLe (a b : Cell) : Bool :=
  if decide (|a.y - b.y| < 2) then decide (a.x ≤ b.x) else decide (a.y < b.y)

/-- The element comparator of part_000 lines 390 and 466 (sort by approximate Y
within `1`, then X), rendered as a `le` predicate. -/
def elemLe (a b : Element) : Bool :=
  if decide (|a.y - b.y| < 1) then decide (a.x ≤ b.x) else decide (a.y < b.y)

/-- `parseCells` of part_000 lines 397-446, starting from the extracted lines:
build the point grid, pair each point with its nearest right and down neighbours,
and sort the resulting cells. -/
def parseCells (lines : List Rectangle) : List Cell :=
  let points := buildPoints lines
  let cells := points.filterMap
    (fun point =>
      match closestRightPoint points point, closestDownPoint points point with
      | some closestRight, some closestDown =>
        some ⟨point.x, point.y, closestRight.x - point.x, closestDown.y - point.y, []⟩
      | _, _ => none)
  jsSortBy cellLe cells

/-- One step of the row grouper (part_000 lines 511-517): `rows.find` locates the
first row whose first cell's Y is within `2` of the cell's Y and the cell is pushed
onto it; otherwise the cell starts a new row.  (`row[0]` is modelled by `headD`;
rows produced by `groupRows` are never empty.) -/
def insertCellIntoRows : List (List Cell) → Cell → List (List Cell)
  | [], cell => [[cell]]
  | row :: rest, cell =>
    if decide (|(row.headD ⟨0, 0, 0, 0, []⟩).y - cell.y| < 2) then (row ++ [cell]) :: rest
    else row :: insertCellIntoRows rest cell

/-- The row grouper of part_000 lines 510-517: group the cells into rows. -/
def groupRows (cells : List Cell) : List (List Cell) :=
  cells.foldl insertCellIntoRows []

/-!  JavaScript string primitives, modelled on `List Char` with structural
recursion (fuel bounded by the string length, which always suffices). -/

/-- The whitespace characters recognised by JavaScript's `\s` and `trim`
(restricted to the ASCII range, which covers every string this program handles). -/
def isWsChar (c : Char) : Bool :=
  c = ' ' || c = '\t' || c = '\n' || c = '\r' || c = '\x0b' || c = '\x0c'

/-- Whether the first list is an initial segment of the second. -/
def startsWithL : List Char → List Char → Bool
  | [], _ => true
  | _ :: _, [] => false
  | p :: ps, c :: cs => p = c && startsWithL ps cs

/-- Worker for `jsSplit`: scan left to right, cutting at each (non-overlapping)
occurrence of the separator. -/
def splitGo (sep : List Char) : ℕ → List Char → List Char → List (List Char)
  | _, cur, [] => [cur.reverse]
  | 0, cur, rest => [cur.reverse ++ rest]
  | fuel + 1, cur, c :: cs =>
    if startsWithL sep (c :: cs) then
      cur.reverse :: splitGo sep fuel [] ((c :: cs).drop sep.length)
    else
      splitGo sep fuel (c :: cur) cs

/-- JavaScript `String.prototype.split` with a (non-empty in all uses) literal
separator; splitting on the empty string yields the individual characters. -/
def jsSplit (s sep : String) : List String :=
  if sep.data.isEmpty then s.data.map (fun c => String.mk [c])
  else (splitGo sep.data (s.data.length + 1) [] s.data).map String.mk

/-- Worker for `jsReplace`: replace each non-overlapping occurrence of `pat`,
left to right. -/
def replaceGo (pat rep : List Char) : ℕ → List Char → List Char
  | _, [] => []
  | 0, rest => rest
  | fuel + 1, c :: cs =>
    if startsWithL pat (c :: cs) then rep ++ replaceGo pat rep fuel ((c :: cs).drop pat.length)
    else c :: replaceGo pat rep fuel cs

/-- JavaScript `String.prototype.replace` with a global literal pattern. -/
def jsReplace (s pat rep : String) : String :=
  if pat.data.isEmpty then s else String.mk (replaceGo pat.data rep.data (s.data.length + 1) s.data)

/-- JavaScript `String.prototype.trim`. -/
def jsTrim (s : String) : String :=
  String.mk (((s.data.dropWhile isWsChar).reverse.dropWhile isWsChar).reverse)

/-- JavaScript `String.prototype.toUpperCase` (ASCII range). -/
def jsToUpper (s : String) : String :=
  String.mk (s.data.map Char.toUpper)

/-- JavaScript `String.prototype.includes` for a non-empty literal pattern. -/
def jsIncludes (s pat : String) : Bool :=
  s.data.tails.any (startsWithL pat.data)

/-- JavaScript `String.prototype.startsWith`. -/
def jsStartsWith (s pre : String) : Bool :=
  startsWithL pre.data s.data

/-- JavaScript `String.prototype.substring(n)` (drop the first `n` characters). -/
def jsDropStr (s : String) (n : ℕ) : String :=
  String.mk (s.data.drop n)

/-- JavaScript `Array.prototype.join(sep)` on an array of strings. -/
def jsJoin (sep : String) : List String → String
  | [] => ""
  | x :: xs => xs.foldl (fun acc y => acc ++ sep ++ y) x

/-- Whether a character list starts with a whitespace character. -/
def wsNext : List Char → Bool
  | [] => false
  | c :: _ => isWsChar c

/-- Worker for `collapseWs`: replace each maximal run of two or more whitespace
characters by a single space (the regex `/\s\s+/g` replaced by a space). -/
def collapseGo : ℕ → List Char → List Char
  | _, [] => []
  | 0, rest => rest
  | fuel + 1, c :: cs =>
    if isWsChar c && wsNext cs then ' ' :: collapseGo fuel (cs.dropWhile isWsChar)
    else c :: collapseGo fuel cs

/-- The `.replace(/\s\s+/g, " ")` whitespace collapsing of part_000 lines 564-565. -/
def collapseWs (s : String) : String :=
  String.mk (collapseGo (s.data.length + 1) s.data)

/-- Whether the character list starts with a match of `[0-9]+\/[0-9]+\/[0-9]`.
Since `/` is not a digit, the greedy `[0-9]+` never needs backtracking, so this
is equivalent to the regex match at this position. -/
def matchDaAt (cs : List Char) : Bool :=
  let d1 := cs.takeWhile Char.isDigit
  let r1 := cs.dropWhile Char.isDigit
  if d1.isEmpty then false
  else
    match r1 with
    | '/' :: r2 =>
      let d2 := r2.takeWhile Char.isDigit
      let r3 := r2.dropWhile Char.isDigit
      if d2.isEmpty then false
      else
        match r3 with
        | '/' :: r4 =>
          match r4 with
          | c :: _ => c.isDigit
          | [] => false
        | _ => false
    | _ => false

/-- The test `/[0-9]+\/[0-9]+\/[0-9]/.test(s)` of part_000 line 566: regex `test`
searches for a match at any position. -/
def daTest (s : String) : Bool :=
  s.data.tails.any matchDaAt

/-- Concatenate the texts of a list of elements (`elements.map(e => e.text).join("")`). -/
def joinTexts (elements : List Element) : String :=
  elements.foldl (fun acc e => acc ++ e.text) ""

/-- The token split of the overhang splitter (part_000 lines 357, 371, 381):
split on three consecutive spaces, trim each token, drop empty tokens. -/
def splitTokens (text : String) : List String :=
  ((jsSplit text "   ").map jsTrim).filter (fun token => token ≠ "")

/-!  The overhang splitter (`removeOverhangingElements`, part_000 lines 333-394). -/

/-- Processing of a single overhang element of the cell at `columnIndex` of `row`
(the body of the `for (let overhangElement of overhangElements)` loop,
part_000 lines 338-385).  Elements of the cell aligned with the overhang element
(within `5` in Y) are removed; their joined, trimmed text is split into tokens
which are routed into this cell and, for the assessment and description columns,
into the one or two cells to the right when those cells exist in the row. -/
def processOverhangElement (assessmentCell descriptionCell decisionDateCell : Option Rectangle)
    (columnIndex : ℕ) (row : List Cell) (overhangElement : Element) : List Cell :=
  match row[columnIndex]? with
  | none => row
  | some cell =>
    let alignedElements := cell.elements.filter
      (fun e => decide (|e.y - overhangElement.y| < 5))
    let keptElements := cell.elements.filter
      (fun e => !(decide (|e.y - overhangElement.y| < 5)))
    let text := jsTrim (joinTexts alignedElements)
    let row0 := row.set columnIndex { cell with elements := keptElements }
    if text = "" then row0
    else
      let a0 := alignedElements.headD ⟨"", 0, 0, 0, 0⟩
      if getHorizontalOverlapPercentageOpt (some cell.toRect) assessmentCell > 90 then
        let tokens := splitTokens text
        let assessmentText := (tokens[0]?).getD ""
        let row1 := row0.set columnIndex
          { cell with elements := keptElements ++
              [Element.mk assessmentText a0.x a0.y (cell.x + cell.width - a0.x) a0.height] }
        let row2 :=
          match tokens[1]?, row1[columnIndex + 1]? with
          | some vgNumberText, some vgNumberCell =>
            row1.set (columnIndex + 1)
              { vgNumberCell with elements := vgNumberCell.elements ++
                  [Element.mk vgNumberText vgNumberCell.x a0.y vgNumberCell.width a0.height] }
          | _, _ => row1
        let row3 :=
          match tokens[2]?, row2[columnIndex + 2]? with
          | some applicationNumberText, some applicationNumberCell =>
            row2.set (columnIndex + 2)
              { applicationNumberCell with elements := applicationNumberCell.elements ++
                  [Element.mk applicationNumberText applicationNumberCell.x a0.y
                    applicationNumberCell.width a0.height] }
          | _, _ => row2
        row3
      else if getHorizontalOverlapPercentageOpt (some cell.toRect) descriptionCell > 90 then
        let tokens := splitTokens text
        let descriptionText := (tokens[0]?).getD ""
        let row1 := row0.set columnIndex
          { cell with elements := keptElements ++
              [Element.mk descriptionText a0.x a0.y (cell.x + cell.width - a0.x) a0.height] }
        match tokens[1]?, row1[columnIndex + 1]? with
        | some decisionDateText, some decisionDateRowCell =>
          row1.set (columnIndex + 1)
            { decisionDateRowCell with elements := decisionDateRowCell.elements ++
                [Element.mk decisionDateText decisionDateRowCell.x a0.y
                  decisionDateRowCell.width a0.height] }
        | _, _ => row1
      else if getHorizontalOverlapPercentageOpt (some cell.toRect) decisionDateCell > 90 then
        let tokens := splitTokens text
        let decisionDateText := (tokens[0]?).getD ""
        row0.set columnIndex
          { cell with elements := keptElements ++
              [Element.mk decisionDateText a0.x a0.y (cell.x + cell.width - a0.x) a0.height] }
      else row0

/-- Processing of all overhang elements of the cell at `columnIndex` of `row`
(part_000 lines 335-385): the overhang elements are those elements of the cell
not fully contained in it, collected before any processing. -/
def processCellOverhangs (assessmentCell descriptionCell decisionDateCell : Option Rectangle)
    (columnIndex : ℕ) (row : List Cell) : List Cell :=
  match row[columnIndex]? with
  | none => row
  | some cell =>
    (cell.elements.filter (fun e => !(contains cell.toRect e.toRect))).foldl
      (processOverhangElement assessmentCell descriptionCell decisionDateCell columnIndex) row

/-- Processing of all cells of a row, by increasing column index (part_000 line 335). -/
def processRowOverhangs (assessmentCell descriptionCell decisionDateCell : Option Rectangle)
    (row : List Cell) : List Cell :=
  (List.range row.length).foldl
    (fun r columnIndex =>
      processCellOverhangs assessmentCell descriptionCell decisionDateCell columnIndex r)
    row

/-- `removeOverhangingElements` of part_000 lines 333-394: process every row, then
re-sort every cell's elements by approximate Y then X. -/
def removeOverhangingElements (assessmentCell descriptionCell decisionDateCell : Option Rectangle)
    (rows : List (List Cell)) : List (List Cell) :=
  (rows.map (processRowOverhangs assessmentCell descriptionCell decisionDateCell)).map
    (fun row => row.map (fun cell => { cell with elements := jsSortBy elemLe cell.elements }))

/-!  The address normalizer (part_000 lines 148-331).  The gazetteer dictionaries
(`StreetNames`, `StreetSuffixes`, `SuburbNames`, `HundredSuburbNames`) are global
read-only structures loaded at startup; they are modelled as an explicit parameter.
The external fuzzy matcher `didyoumean2` is modelled as a parameter
`dym threshold candidate keys`, which by the library's contract returns `none`
or one of `keys`.

Partial JavaScript operations are made explicit: a property access or method call
that JavaScript would perform on `undefined` (a thrown `TypeError`) is modelled by
`Except.error ()`. -/

/-- The four gazetteer dictionaries, as association lists in insertion order
(object key order in JavaScript). -/
structure Gazetteer where
  streetNames : List (String × List String)
  streetSuffixes : List (String × String)
  suburbNames : List (String × String)
  hundredSuburbNames : List (String × List String)

/-- JavaScript object property lookup on an association list. -/
def lookup (l : List (String × α)) (k : String) : Option α :=
  (l.find? (fun p => p.1 == k)).map (fun p => p.2)

/-- The type of the fuzzy matcher: edit-distance threshold, candidate, dictionary
keys; returns `none` or a matching key. -/
def DymFun : Type :=
  ℕ → String → List String → Option String

/-- JavaScript array indexing with a possibly negative index (`tokens[i]` where
`i` may be negative, in which case the result is `undefined`). -/
def jsIdx (l : List String) (i : ℤ) : Option String :=
  if i < 0 then none else l[i.toNat]?

/-- JavaScript `tokens.slice(-index)`: the last `index` elements (the whole list
if `index` exceeds the length). -/
def sliceLast (l : List String) (index : ℕ) : List String :=
  l.drop (l.length - index)

/-- The result of `formatStreet`: the reconstructed street name and the street's
suburb list.  The suburb list is an `Option` because in the fuzzy branch the code
reads `StreetNames[streetNameMatch]` without checking that the key exists; a
missing key leaves the JavaScript field `undefined`. -/
structure FormattedStreet where
  streetName : String
  suburbNames : Option (List String)
deriving DecidableEq

/-- One iteration of the exact street-name loop of `formatStreet`
(part_000 lines 166-170). -/
def streetExactTry (gaz : Gazetteer) (tokens : List String) (index : ℕ) :
    Option FormattedStreet :=
  match lookup gaz.streetNames (jsJoin " " (sliceLast tokens index)) with
  | some suburbNames => some ⟨jsJoin " " tokens, some suburbNames⟩
  | none => none

/-- One iteration of the fuzzy street-name loop of `formatStreet`
(part_000 lines 173-179): fuzzy match with edit distance at most `1`, then remove
the matched window (`splice`) and reattach the matched dictionary key. -/
def streetFuzzyTry (gaz : Gazetteer) (dym : DymFun) (tokens : List String) (index : ℕ) :
    Option FormattedStreet :=
  match dym 1 (jsJoin " " (sliceLast tokens index)) (gaz.streetNames.map (fun p => p.1)) with
  | some streetNameMatch =>
    some ⟨jsTrim (jsJoin " " (tokens.take (tokens.length - index)) ++ " " ++ streetNameMatch),
      lookup gaz.streetNames streetNameMatch⟩
  | none => none

/-- `formatStreet` of part_000 lines 150-182: recognise the trailing street suffix
(abbreviated or full), then look for a street name in the last 4, 3 or 2 tokens,
first exactly and then fuzzily.  `formatStreet(undefined)` is `undefined`. -/
def formatStreet (gaz : Gazetteer) (dym : DymFun) : Option String → Option FormattedStreet
  | none => none
  | some text =>
    let tokens := jsSplit (jsToUpper (jsTrim text)) " "
    let token := (tokens.getLast?).getD ""
    let tokens := tokens.dropLast
    let streetSuffix :=
      match lookup gaz.streetSuffixes token with
      | some s => some s
      | none => (gaz.streetSuffixes.map (fun p => p.2)).find? (fun s => s == token)
    match streetSuffix with
    | none => none
    | some streetSuffix =>
      let tokens := tokens ++ [streetSuffix]
      match streetExactTry gaz tokens 4 with
      | some fs => some fs
      | none =>
        match streetExactTry gaz tokens 3 with
        | some fs => some fs
        | none =>
          match streetExactTry gaz tokens 2 with
          | some fs => some fs
          | none =>
            match streetFuzzyTry gaz dym tokens 4 with
            | some fs => some fs
            | none =>
              match streetFuzzyTry gaz dym tokens 3 with
              | some fs => some fs
              | none => streetFuzzyTry gaz dym tokens 2

/-- `splitAddress` of part_000 lines 185-233: de-interleave an address containing
the marker character into two candidate addresses and keep the longer one. -/
def splitAddress (address : String) : String :=
  if !(jsIncludes address "ü") then address
  else
    let tokens := jsSplit address ","
    let pair := tokens.foldl
      (fun (acc : List String × List String) token =>
        if jsIncludes token "ü" then
          let items := jsSplit token " "
          let texts := items.foldl
            (fun (t : String × String) item =>
              let parts := jsSplit item "ü"
              (t.1 ++ " " ++ (parts.headD ""),
               if 2 ≤ parts.length then t.2 ++ " " ++ ((parts[1]?).getD "") else t.2))
            ("", "")
          (acc.1 ++ [" " ++ jsTrim texts.1], acc.2 ++ [" " ++ jsTrim texts.2])
        else (acc.1 ++ [token], acc.2 ++ [token]))
      ([], [])
    let address1 := jsJoin "," pair.1
    let address2 := jsJoin "," pair.2
    if address2.data.length < address1.data.length then address1 else address2

/-- The terrace-abbreviation replacements of part_000 line 237. -/
def tceReplace (address : String) : String :=
  jsReplace (jsReplace (jsReplace (jsReplace address " TCE NTH" " TERRACE NORTH")
    " TCE STH" " TERRACE SOUTH") " TCE EAST" " TERRACE EAST") " TCE WEST" " TERRACE WEST"

/-- Lift an optional value to `Except`, erring where JavaScript would throw a
`TypeError` for an operation on `undefined`. -/
def toExcept : Option α → Except Unit α
  | none => Except.error ()
  | some a => Except.ok a

/-- The suburb-intersection filter of the two-token branch (part_000 lines 270-271):
`suburbNames.filter(s => hundredSuburbNames === null || hundredSuburbNames.indexOf(s) >= 0)`.
`hundredSuburbNames` is never `null` (it is `[]` or a dictionary value or `undefined`),
so the predicate is membership; calling `indexOf` on `undefined` throws, but only
if the filtered list is non-empty (otherwise the predicate is never evaluated). -/
def filterByHundred2 (suburbNames : List String) (hs : Option (List String)) :
    Except Unit (List String) :=
  match suburbNames with
  | [] => Except.ok []
  | _ =>
    match hs with
    | none => Except.error ()
    | some h => Except.ok (suburbNames.filter (fun s => h.contains s))

/-- The suburb-intersection filters of the three/four-token branch (part_000
lines 319-321): `list.filter(s => hs.length === 0 || hs.indexOf(s) >= 0)`.
Reading `.length` of `undefined` throws, but only if the filtered list is
non-empty. -/
def filterByHundred3 (suburbNames : List String) (hs : Option (List String)) :
    Except Unit (List String) :=
  match suburbNames with
  | [] => Except.ok []
  | _ =>
    match hs with
    | none => Except.error ()
    | some h => Except.ok (suburbNames.filter (fun s => h.length == 0 || h.contains s))

/-- The hundred-suburb list as assigned in part_000 lines 261-267 and 294-302:
initialized to `[]` and overwritten with the raw dictionary lookup when the fuzzy
match succeeds (the lookup is `undefined` if the matched key is absent). -/
def hundredLookup (gaz : Gazetteer) (m : Option String) : Option (List String) :=
  match m with
  | none => some []
  | some hundredNameMatch => lookup gaz.hundredSuburbNames hundredNameMatch

/-- The canonical suburb string pushed in part_000 lines 276 and 327:
`SuburbNames[suburbName]`; `Array.prototype.join` renders `undefined` as the
empty string. -/
def canonicalSuburb (gaz : Gazetteer) (suburbName : Option String) : String :=
  ((suburbName.bind (lookup gaz.suburbNames)).getD "")

/-- The `streetNameIndex === 2` branch of `formatAddress` (part_000 lines 260-278):
the single token after the street is a hundred-name candidate. -/
def resolveSuburb2 (gaz : Gazetteer) (dym : DymFun) (tokens : List String)
    (fs : FormattedStreet) : Except Unit String :=
  match jsIdx tokens ((tokens.length : ℤ) - 1) with
  | none => Except.error ()
  | some lastTok =>
    let token := jsTrim lastTok
    let token := if jsStartsWith token "HD " then jsTrim (jsDropStr token 3) else token
    let hundredNameMatch := dym 2 token (gaz.hundredSuburbNames.map (fun p => p.1))
    let hundredSuburbNames := hundredLookup gaz hundredNameMatch
    match fs.suburbNames with
    | none => Except.error ()
    | some sns =>
      match filterByHundred2 sns hundredSuburbNames with
      | Except.error e => Except.error e
      | Except.ok intersectingSuburbNames =>
        let suburbName := if intersectingSuburbNames.length = 0 then sns[0]?
          else intersectingSuburbNames[0]?
        Except.ok (jsJoin ", " (tokens.take (tokens.length - 2) ++
          [fs.streetName, canonicalSuburb gaz suburbName]))

/-- The `streetNameIndex === 3 || streetNameIndex === 4` branch of `formatAddress`
(part_000 lines 293-329): the last token is a hundred-name candidate; the
second-to-last is a second hundred candidate when prefixed by `"HD "`, otherwise a
suburb-name candidate. -/
def resolveSuburb34 (gaz : Gazetteer) (dym : DymFun) (tokens : List String)
    (streetNameIndex : ℕ) (fs : FormattedStreet) : Except Unit String :=
  match jsIdx tokens ((tokens.length : ℤ) - 1) with
  | none => Except.error ()
  | some lastTok =>
    let token := jsTrim lastTok
    let token := if jsStartsWith token "HD " then jsTrim (jsDropStr token 3) else token
    let hundredSuburbNames1 :=
      hundredLookup gaz (dym 2 token (gaz.hundredSuburbNames.map (fun p => p.1)))
    match jsIdx tokens ((tokens.length : ℤ) - 2) with
    | none => Except.error ()
    | some tok2 =>
      let token2 := jsTrim tok2
      let hsAndSuburbs :=
        if jsStartsWith token2 "HD " then
          (hundredLookup gaz (dym 2 (jsTrim (jsDropStr token2 3))
            (gaz.hundredSuburbNames.map (fun p => p.1))), ([] : List String))
        else
          (some ([] : List String),
           match dym 2 token2 (gaz.suburbNames.map (fun p => p.1)) with
           | some suburbNameMatch => [suburbNameMatch]
           | none => [])
      match fs.suburbNames with
      | none => Except.error ()
      | some sns =>
        match filterByHundred3 sns hundredSuburbNames1 with
        | Except.error e => Except.error e
        | Except.ok l1 =>
          match filterByHundred3 l1 hsAndSuburbs.1 with
          | Except.error e => Except.error e
          | Except.ok l2 =>
            let intersectingSuburbNames := l2.filter
              (fun s => hsAndSuburbs.2.length == 0 || hsAndSuburbs.2.contains s)
            let suburbName := if intersectingSuburbNames.length = 0 then sns[0]?
              else intersectingSuburbNames[0]?
            Except.ok (jsJoin ", " (tokens.take (tokens.length - streetNameIndex) ++
              [fs.streetName, canonicalSuburb gaz suburbName]))

/-- The street-position dispatch of `formatAddress` (part_000 lines 243-255 and
the two suburb-resolution branches): try the street at the third-to-last,
second-to-last and fourth-to-last comma token of the (already canonicalized)
address; if no position matches, return the address unchanged. -/
def formatAddressTokens (gaz : Gazetteer) (dym : DymFun) (tokens : List String)
    (address : String) : Except Unit String :=
  match formatStreet gaz dym (jsIdx tokens ((tokens.length : ℤ) - 3)) with
  | some fs => resolveSuburb34 gaz dym tokens 3 fs
  | none =>
    match formatStreet gaz dym (jsIdx tokens ((tokens.length : ℤ) - 2)) with
    | some fs => resolveSuburb2 gaz dym tokens fs
    | none =>
      match formatStreet gaz dym (jsIdx tokens ((tokens.length : ℤ) - 4)) with
      | some fs => resolveSuburb34 gaz dym tokens 4 fs
      | none => Except.ok address

/-- The canonicalization prefix of `formatAddress` (part_000 lines 237-239):
expand the terrace abbreviations, then de-interleave a multi-address marked with
the `ü` character.  After this point `formatAddress` works on (and, in the
no-match case, returns) this canonicalized address, not the original input. -/
def canonicalizeAddress (address : String) : String :=
  let address := tceReplace address
  if jsIncludes address "ü" then splitAddress address else address

/-- `formatAddress` of part_000 lines 235-331: expand terrace abbreviations,
de-interleave multi-addresses, split on commas and dispatch on the position of
the recognised street (third-to-last, then second-to-last, then fourth-to-last);
when no position matches, return the canonicalized address. -/
def formatAddress (gaz : Gazetteer) (dym : DymFun) (address : String) :
    Except Unit String :=
  let address := canonicalizeAddress address
  formatAddressTokens gaz dym (jsSplit address ",") address

/-!  Record extraction (part_000 lines 557-579). -/

/-- A development-application record as pushed in part_000 lines 571-578. -/
structure Record where
  applicationNumber : String
  address : String
  description : String
  informationUrl : String
  commentUrl : String
  scrapeDate : String
deriving DecidableEq

/-- The constant comment URL of part_000 line 18. -/
def CommentUrl : String :=
  "mailto:council@wattlerange.sa.gov.au"

/-- The per-row record extraction of part_000 lines 559-579.  The header cells
may be absent (`cells.find` returned `undefined`); the row-level `row.find` may
also fail, in which case JavaScript dereferences `.elements` of `undefined` and
throws, modelled by `Except.error ()`.  A row whose identifier does not contain a
`digits/digits/digit` pattern, or whose formatted address is empty, produces no
record (`Except.ok none`).  `scrapeDate` stands for `moment().format("YYYY-MM-DD")`. -/
def extractRow (gaz : Gazetteer) (dym : DymFun)
    (applicationNumberCell addressCell descriptionCell : Option Rectangle)
    (url scrapeDate : String) (row : List Cell) : Except Unit (Option Record) :=
  let rowApplicationNumberCell := row.find?
    (fun cell => decide (getHorizontalOverlapPercentageOpt (some cell.toRect)
      applicationNumberCell > 90))
  let rowAddressCell := row.find?
    (fun cell => decide (getHorizontalOverlapPercentageOpt (some cell.toRect)
      addressCell > 90))
  let rowDescriptionCell := row.find?
    (fun cell => decide (getHorizontalOverlapPercentageOpt (some cell.toRect)
      descriptionCell > 90))
  match rowApplicationNumberCell with
  | none => Except.error ()
  | some ac =>
    let applicationNumber := jsTrim (joinTexts ac.elements)
    match rowAddressCell with
    | none => Except.error ()
    | some adc => do
      let address := jsTrim (collapseWs (joinTexts adc.elements))
      let description :=
        match rowDescriptionCell with
        | none => ""
        | some dc => jsTrim (collapseWs (joinTexts dc.elements))
      if daTest applicationNumber = false then return none
      else do
        let address ← formatAddress gaz dym address
        if address = "" then return none
        else
          return some ⟨applicationNumber, address,
            (if description = "" then "NO DESCRIPTION PROVIDED" else description),
            url, CommentUrl, scrapeDate⟩

/-- The empty gazetteer (no streets, suffixes, suburbs or hundreds). -/
def emptyGazetteer : Gazetteer :=
  ⟨[], [], [], []⟩

/-- A fuzzy matcher that never matches. -/
def dymNone : DymFun :=
  fun _ _ _ => none

/-- The four border lines of a single 10×10 square with its top-left corner at
the origin: two horizontal lines of width 10 and height 0, and two vertical lines
of height 10 and width 0. -/
def squareLines : List Rectangle :=
  [⟨0, 0, 10, 0⟩, ⟨0, 10, 10, 0⟩, ⟨0, 0, 0, 10⟩, ⟨10, 0, 0, 10⟩]

/-!  Theorems. -/

/-- C1: for all rectangles `a` and `b` with non-negative widths and heights, if
`contains a b` returns `true` then `intersect a b` returns a rectangle equal to
`b` exactly (same `x`, `y`, `width` and `height`). -/
theorem contains_implies_intersect_eq (a b : Rectangle)
    (ha1 : 0 ≤ a.width) (ha2 : 0 ≤ a.height) (hb1 : 0 ≤ b.width) (hb2 : 0 ≤ b.height)
    (h : contains a b = true) : intersect a b = b := by
  obtain ⟨h1, h2, h3, h4⟩ := of_decide_eq_true h
  obtain ⟨ax, ay, aw, ah⟩ := a
  obtain ⟨bx, by', bw, bh⟩ := b
  simp only [getHorizontalOverlapPercentage] at *
  simp only [intersect]
  rw [max_eq_right h1, max_eq_right h2, min_eq_right h3, min_eq_right h4]
  rw [if_pos ⟨by linarith, by linarith⟩]
  congr 1 <;> ring

/-- C1 witness: `contains` holds for a concrete pair of rectangles with
non-negative dimensions, and `intersect` returns the inner rectangle. -/
theorem contains_implies_intersect_eq_witness :
    intersect ⟨0, 0, 10, 10⟩ ⟨1, 1, 2, 2⟩ = ⟨1, 1, 2, 2⟩ :=
  contains_implies_intersect_eq ⟨0, 0, 10, 10⟩ ⟨1, 1, 2, 2⟩
    (by norm_num) (by norm_num) (by norm_num) (by norm_num)
    (by norm_num [contains])

/-- C2 counterexample: for the zero-width rectangle at the origin the X spans of
the two arguments are identical, yet `getHorizontalOverlapPercentage` returns `0`,
not `100` — the claim's "equals 100 whenever the X spans are identical" fails for
width-0 rectangles (for which the function is specified and implemented to
return `0`). -/
theorem hop_identical_spans_zero_width_counterexample :
    (Rectangle.mk 0 0 0 0).x = (Rectangle.mk 0 0 0 0).x ∧
    (Rectangle.mk 0 0 0 0).x + (Rectangle.mk 0 0 0 0).width =
      (Rectangle.mk 0 0 0 0).x + (Rectangle.mk 0 0 0 0).width ∧
    getHorizontalOverlapPercentage ⟨0, 0, 0, 0⟩ ⟨0, 0, 0, 0⟩ = 0 ∧
    (0 : ℚ) ≠ 100 := by
  refine ⟨rfl, rfl, ?_, by norm_num⟩
  norm_num [getHorizontalOverlapPercentage]

/-- C2 (amended): for rectangles with non-negative widths,
`getHorizontalOverlapPercentage` lies in `[0, 100]`; it equals `0` whenever the X
spans are disjoint or either width is `0`; and it equals `100` whenever the X
spans are identical and the width is positive. -/
theorem hop_range_and_endpoints (a b : Rectangle)
    (ha : 0 ≤ a.width) (hb : 0 ≤ b.width) :
    (0 ≤ getHorizontalOverlapPercentage a b ∧ getHorizontalOverlapPercentage a b ≤ 100) ∧
    (a.x + a.width ≤ b.x ∨ b.x + b.width ≤ a.x ∨ a.width = 0 ∨ b.width = 0 →
      getHorizontalOverlapPercentage a b = 0) ∧
    (a.x = b.x → a.x + a.width = b.x + b.width → 0 < a.width →
      getHorizontalOverlapPercentage a b = 100) := by
  obtain ⟨ax, ay, aw, ah⟩ := a
  obtain ⟨bx, by', bw, bh⟩ := b
  simp only [getHorizontalOverlapPercentage] at *
  refine ⟨?_, ?_, ?_⟩
  · split_ifs with hguard
    · norm_num
    · push_neg at hguard
      obtain ⟨hg1, hg2, hg3, hg4⟩ := hguard
      have haw : 0 < aw := lt_of_le_of_ne ha (Ne.symm hg3)
      have hbw : 0 < bw := lt_of_le_of_ne hb (Ne.symm hg4)
      have hmm : max ax bx < min (ax + aw) (bx + bw) := by
        rw [lt_min_iff]
        constructor <;> rw [max_lt_iff] <;> constructor <;> linarith
      have hint : 0 < min (ax + aw) (bx + bw) - max ax bx := by linarith
      have hle : min (ax + aw) (bx + bw) - max ax bx ≤ max (ax + aw) (bx + bw) - min ax bx := by
        have h5 := min_le_max (a := ax + aw) (b := bx + bw)
        have h6 := min_le_max (a := ax) (b := bx)
        linarith
      have hunion : 0 < max (ax + aw) (bx + bw) - min ax bx := lt_of_lt_of_le hint hle
      constructor
      · positivity
      · rw [div_le_iff₀ hunion]
        linarith
  · intro hd
    rw [if_pos]
    rcases hd with hd | hd | hd | hd
    · exact Or.inr (Or.inl hd)
    · exact Or.inl hd
    · exact Or.inr (Or.inr (Or.inl hd))
    · exact Or.inr (Or.inr (Or.inr hd))
  · intro he1 he2 hpos
    have hw : aw = bw := by linarith
    rw [if_neg]
    · simp only [hw, he1, min_self, max_self]
      rw [div_eq_iff (by intro hc; have hbw : bw = 0 := (by linarith); linarith :
        bx + bw - bx ≠ 0)]
      ring
    · push_neg
      refine ⟨by linarith, by linarith, ne_of_gt hpos,
        fun hc => absurd (hw.trans hc) (ne_of_gt hpos)⟩

/-- C2 witness: the amended claim evaluated at rectangles with identical positive
X spans yields `100 ∈ [0, 100]`. -/
theorem hop_range_and_endpoints_witness :
    (0 ≤ getHorizontalOverlapPercentage ⟨0, 0, 10, 5⟩ ⟨0, 3, 10, 5⟩ ∧
      getHorizontalOverlapPercentage ⟨0, 0, 10, 5⟩ ⟨0, 3, 10, 5⟩ ≤ 100) ∧
    getHorizontalOverlapPercentage ⟨0, 0, 10, 5⟩ ⟨0, 3, 10, 5⟩ = 100 := by
  have h := hop_range_and_endpoints ⟨0, 0, 10, 5⟩ ⟨0, 3, 10, 5⟩ (by norm_num) (by norm_num)
  exact ⟨h.1, h.2.2 rfl rfl (by norm_num)⟩

/-- C3 counterexample: for rectangles with non-negative widths and heights but a
zero height of the second argument, `getVerticalOverlapPercentage` divides `0` by
`0` (JavaScript `NaN`) whenever the Y spans touch, so the result is not a number
in `[0, 100]`. -/
theorem vop_zero_height_nan_counterexample :
    getVerticalOverlapPercentage ⟨0, 0, 1, 10⟩ ⟨0, 5, 1, 0⟩ = JSNum.nan ∧
    ¬(∃ q : ℚ, 0 ≤ q ∧ q ≤ 100 ∧
      getVerticalOverlapPercentage ⟨0, 0, 1, 10⟩ ⟨0, 5, 1, 0⟩ = JSNum.num q) := by
  have h : getVerticalOverlapPercentage ⟨0, 0, 1, 10⟩ ⟨0, 5, 1, 0⟩ = JSNum.nan := by
    norm_num [getVerticalOverlapPercentage, jsDiv]
  refine ⟨h, ?_⟩
  rintro ⟨q, -, -, hq⟩
  rw [h] at hq
  exact JSNum.noConfusion hq

/-- C3 (amended): for rectangles with non-negative widths and heights and a
positive height of the second argument, `getVerticalOverlapPercentage` returns an
ordinary number in `[0, 100]`; when the second argument's height is `0` the
division `(y2 - y1) * 100 / height` is a JavaScript division by zero and the
result is `0` or `NaN`, not always a number in `[0, 100]`. -/
theorem vop_range (a b : Rectangle)
    (ha1 : 0 ≤ a.width) (ha2 : 0 ≤ a.height) (hb1 : 0 ≤ b.width) (hb2 : 0 < b.height) :
    ∃ q : ℚ, getVerticalOverlapPercentage a b = JSNum.num q ∧ 0 ≤ q ∧ q ≤ 100 := by
  obtain ⟨ax, ay, aw, ah⟩ := a
  obtain ⟨bx, by', bw, bh⟩ := b
  simp only [getVerticalOverlapPercentage, jsDiv] at *
  split_ifs with h1 h2 h3 h4
  · exact ⟨0, rfl, le_refl 0, by norm_num⟩
  · exact absurd h2 (ne_of_gt hb2)
  · exact absurd h2 (ne_of_gt hb2)
  · exact absurd h2 (ne_of_gt hb2)
  · have hge := not_lt.mp h1
    refine ⟨(min (ay + ah) (by' + bh) - max ay by') * 100 / bh, rfl,
      div_nonneg (by nlinarith) (le_of_lt hb2), ?_⟩
    rw [div_le_iff₀ hb2]
    have h5 : min (ay + ah) (by' + bh) ≤ by' + bh := min_le_right _ _
    have h6 : by' ≤ max ay by' := le_max_right _ _
    linarith

/-- C3 witness: the amended claim evaluated at concrete rectangles with a
positive second height. -/
theorem vop_range_witness :
    ∃ q : ℚ, getVerticalOverlapPercentage ⟨0, 0, 10, 10⟩ ⟨0, 5, 10, 10⟩ = JSNum.num q ∧
      0 ≤ q ∧ q ≤ 100 :=
  vop_range ⟨0, 0, 10, 10⟩ ⟨0, 5, 10, 10⟩ (by norm_num) (by norm_num) (by norm_num) (by norm_num)

/-- C4: given exactly the four border lines of a single 10×10 square at the
origin, cell reconstruction yields exactly one cell, `{x:0, y:0, width:10, height:10}`. -/
theorem parseCells_square :
    parseCells squareLines = [⟨0, 0, 10, 10, []⟩] := by
  norm_num [parseCells, squareLines, buildPoints, buildStep, insertPoint, keepLine, sqDist,
    closestRightPoint, closestDownPoint, jsSortBy, ordInsert, cellLe,
    List.foldl, List.filter, List.any, List.filterMap, List.foldr]

/-- Squared distance is symmetric. -/
theorem sqDist_comm (p q : Point) : sqDist p q = sqDist q p := by
  simp only [sqDist]
  ring

/-- Inserting a point preserves the minimum-separation invariant: the point is
only appended when every present point is at squared distance at least `1`. -/
theorem insertPoint_pairwise {points : List Point}
    (h : points.Pairwise (fun p q => 1 ≤ sqDist p q)) (p : Point) :
    (insertPoint points p).Pairwise (fun p q => 1 ≤ sqDist p q) := by
  unfold insertPoint
  split_ifs with hany
  · exact h
  · rw [List.pairwise_append]
    refine ⟨h, List.pairwise_singleton _ _, ?_⟩
    intro a ha b hb
    rw [List.mem_singleton] at hb
    subst hb
    rw [List.any_eq_true] at hany
    push_neg at hany
    have := hany a ha
    simp only [ne_eq, decide_eq_true_eq] at this
    rw [sqDist_comm]
    exact not_lt.mp this

/-- Folding `buildStep` over any list of lines preserves the minimum-separation
invariant of the point set. -/
theorem foldl_buildStep_pairwise (lines : List Rectangle) :
    ∀ acc : List Point, acc.Pairwise (fun p q => 1 ≤ sqDist p q) →
      (lines.foldl buildStep acc).Pairwise (fun p q => 1 ≤ sqDist p q) := by
  induction lines with
  | nil => exact fun acc h => h
  | cons line lines ih =>
    intro acc h
    exact ih _ (insertPoint_pairwise (insertPoint_pairwise h _) _)

/-- C5: for every list of lines, any two distinct points of the point set built
by the point-grid builder are at squared Euclidean distance at least `1`. -/
theorem buildPoints_min_separation (lines : List Rectangle) (p q : Point)
    (hp : p ∈ buildPoints lines) (hq : q ∈ buildPoints lines) (hne : p ≠ q) :
    1 ≤ sqDist p q := by
  have hpair : (buildPoints lines).Pairwise (fun a b => 1 ≤ sqDist a b) :=
    foldl_buildStep_pairwise _ [] List.Pairwise.nil
  exact hpair.forall (fun a b hab => by rw [sqDist_comm]; exact hab) hp hq hne

/-- C5 witness: two distinct points of the point set built from the square's
border lines are at squared distance at least `1`. -/
theorem buildPoints_min_separation_witness :
    (1 : ℚ) ≤ sqDist ⟨0, 0⟩ ⟨10, 0⟩ := by
  have hmem : buildPoints squareLines = [⟨0, 0⟩, ⟨10, 0⟩, ⟨0, 10⟩, ⟨10, 10⟩] := by
    norm_num [buildPoints, buildStep, insertPoint, keepLine, sqDist, squareLines,
      List.foldl, List.filter, List.any]
  exact buildPoints_min_separation squareLines ⟨0, 0⟩ ⟨10, 0⟩
    (by rw [hmem]; simp) (by rw [hmem]; simp)
    (by simp only [ne_eq, Point.mk.injEq]; norm_num)

/-- C6: the row grouper puts cells at `y = 100` and `y = 101.5` in one row and
cells at `y = 100` and `y = 103` in different rows; in general a cell is appended
to the first existing row whose first cell's `y` is within `2` of the cell's `y`,
and starts a new row when no row matches. -/
theorem rowGrouper_spec :
    (groupRows [⟨0, 100, 5, 5, []⟩, ⟨0, 203/2, 5, 5, []⟩] =
      [[⟨0, 100, 5, 5, []⟩, ⟨0, 203/2, 5, 5, []⟩]]) ∧
    (groupRows [⟨0, 100, 5, 5, []⟩, ⟨0, 103, 5, 5, []⟩] =
      [[⟨0, 100, 5, 5, []⟩], [⟨0, 103, 5, 5, []⟩]]) ∧
    (∀ (rows1 : List (List Cell)) (row : List Cell) (rows2 : List (List Cell)) (cell : Cell),
      (∀ r ∈ rows1, ¬(|(r.headD ⟨0, 0, 0, 0, []⟩).y - cell.y| < 2)) →
      |(row.headD ⟨0, 0, 0, 0, []⟩).y - cell.y| < 2 →
      insertCellIntoRows (rows1 ++ row :: rows2) cell = rows1 ++ (row ++ [cell]) :: rows2) ∧
    (∀ (rows : List (List Cell)) (cell : Cell),
      (∀ r ∈ rows, ¬(|(r.headD ⟨0, 0, 0, 0, []⟩).y - cell.y| < 2)) →
      insertCellIntoRows rows cell = rows ++ [[cell]]) := by
  refine ⟨?_, ?_, ?_, ?_⟩
  · norm_num [groupRows, insertCellIntoRows, List.foldl, List.headD, abs_lt]
  · norm_num [groupRows, insertCellIntoRows, List.foldl, List.headD, abs_lt]
  · intro rows1
    induction rows1 with
    | nil =>
      intro row rows2 cell _ hmatch
      simp only [List.nil_append, insertCellIntoRows]
      rw [if_pos (decide_eq_true hmatch)]
    | cons r rs ih =>
      intro row rows2 cell hno hmatch
      have hr := hno r (List.mem_cons_self r rs)
      simp only [List.cons_append, insertCellIntoRows]
      rw [if_neg (by simpa using hr)]
      simp only [List.append_eq]
      rw [ih row rows2 cell (fun r' hr' => hno r' (List.mem_cons_of_mem r hr')) hmatch]
  · intro rows
    induction rows with
    | nil => intro cell _; rfl
    | cons r rs ih =>
      intro cell hno
      have hr := hno r (List.mem_cons_self r rs)
      simp only [insertCellIntoRows, List.cons_append]
      rw [if_neg (by simpa using hr)]
      rw [ih cell (fun r' hr' => hno r' (List.mem_cons_of_mem r hr'))]

/-- C6 witness: the general join rule applied to a concrete singleton row list:
a cell at `y = 101.5` joins the row whose first cell is at `y = 100`. -/
theorem rowGrouper_spec_witness :
    insertCellIntoRows [[⟨0, 100, 5, 5, []⟩]] ⟨0, 203/2, 5, 5, []⟩ =
      [[⟨0, 100, 5, 5, []⟩, ⟨0, 203/2, 5, 5, []⟩]] := by
  have h := rowGrouper_spec.2.2.1 [] [⟨0, 100, 5, 5, []⟩] [] ⟨0, 203/2, 5, 5, []⟩
    (by simp) (by norm_num [List.headD, abs_lt])
  simpa using h

/-- C7: in any row, when the cell at `columnIndex` overlaps the assessment header
by more than 90% horizontally and holds a single overhang element whose (joined,
aligned) text is `"123   ABC123   1/2020/45"`, the overhang splitter replaces the
cell's elements by the first token, places the second token in the next cell to
the right and the third token in the cell two positions to the right — each
neighbour placement only if that neighbour cell exists in the row (no cell is
ever added: the row keeps its length). -/
theorem overhangSplitter_assessment_routing
    (assessmentCell : Rectangle) (descriptionCell decisionDateCell : Option Rectangle)
    (row : List Cell) (columnIndex : ℕ) (cell : Cell) (e : Element)
    (hcell : row[columnIndex]? = some cell)
    (helems : cell.elements = [e])
    (hover : contains cell.toRect e.toRect = false)
    (htext : e.text = "123   ABC123   1/2020/45")
    (hhop : getHorizontalOverlapPercentageOpt (some cell.toRect) (some assessmentCell) > 90) :
    ((processCellOverhangs (some assessmentCell) descriptionCell decisionDateCell
        columnIndex row)[columnIndex]? =
      some { cell with elements :=
        [Element.mk "123" e.x e.y (cell.x + cell.width - e.x) e.height] }) ∧
    (∀ nc, row[columnIndex + 1]? = some nc →
      (processCellOverhangs (some assessmentCell) descriptionCell decisionDateCell
          columnIndex row)[columnIndex + 1]? =
        some { nc with elements := nc.elements ++
          [Element.mk "ABC123" nc.x e.y nc.width e.height] }) ∧
    (∀ nc, row[columnIndex + 2]? = some nc →
      (processCellOverhangs (some assessmentCell) descriptionCell decisionDateCell
          columnIndex row)[columnIndex + 2]? =
        some { nc with elements := nc.elements ++
          [Element.mk "1/2020/45" nc.x e.y nc.width e.height] }) ∧
    ((processCellOverhangs (some assessmentCell) descriptionCell decisionDateCell
        columnIndex row).length = row.length) := by
  have hlt : columnIndex < row.length := by
    by_contra hge
    rw [List.getElem?_eq_none (Nat.le_of_not_lt hge)] at hcell
    exact Option.noConfusion hcell
  have hproc : processCellOverhangs (some assessmentCell) descriptionCell decisionDateCell
      columnIndex row =
      processOverhangElement (some assessmentCell) descriptionCell decisionDateCell
        columnIndex row e := by
    unfold processCellOverhangs
    rw [hcell]
    simp [helems, hover]
  have hjoin : joinTexts [e] = e.text := by
    have h : ∀ s : String, "" ++ s = s := fun s => by obtain ⟨cs⟩ := s; rfl
    show "" ++ e.text = e.text
    exact h e.text
  have htrim : jsTrim "123   ABC123   1/2020/45" = "123   ABC123   1/2020/45" := by decide
  have hne : ¬(("123   ABC123   1/2020/45" : String) = "") := by decide
  have htok : splitTokens "123   ABC123   1/2020/45" = ["123", "ABC123", "1/2020/45"] := by
    decide
  have halign : [e].filter (fun x => decide (|x.y - e.y| < 5)) = [e] := by simp
  have hkept : [e].filter (fun x => !(decide (|x.y - e.y| < 5))) = [] := by simp
  have hres : processOverhangElement (some assessmentCell) descriptionCell decisionDateCell
      columnIndex row e =
      (let row1 := row.set columnIndex { cell with elements :=
        [Element.mk "123" e.x e.y (cell.x + cell.width - e.x) e.height] }
      let row2 :=
        match row[columnIndex + 1]? with
        | some nc => row1.set (columnIndex + 1) { nc with elements := nc.elements ++
            [Element.mk "ABC123" nc.x e.y nc.width e.height] }
        | none => row1
      match row[columnIndex + 2]? with
      | some nc => row2.set (columnIndex + 2) { nc with elements := nc.elements ++
          [Element.mk "1/2020/45" nc.x e.y nc.width e.height] }
      | none => row2) := by
    unfold processOverhangElement
    rw [hcell]
    simp only [helems, halign, hkept, hjoin, htext, htrim, List.headD_cons, List.nil_append]
    rw [if_neg hne, if_pos hhop]
    simp only [htok, List.getElem?_cons_zero, List.getElem?_cons_succ, Option.getD_some,
      List.set_set, List.headD_cons, List.nil_append]
    have hg1 : (row.set columnIndex { cell with elements :=
        [Element.mk "123" e.x e.y (cell.x + cell.width - e.x) e.height] })[columnIndex + 1]? =
        row[columnIndex + 1]? := List.getElem?_set_ne (by omega)
    rw [hg1]
    cases h1 : row[columnIndex + 1]? with
    | none =>
      simp only []
      have hg2 : (row.set columnIndex { cell with elements :=
          [Element.mk "123" e.x e.y (cell.x + cell.width - e.x) e.height]
            })[columnIndex + 2]? = row[columnIndex + 2]? := List.getElem?_set_ne (by omega)
      rw [hg2]
      cases row[columnIndex + 2]? <;> rfl
    | some nc1 =>
      simp only []
      have hg2 : ((row.set columnIndex { cell with elements :=
          [Element.mk "123" e.x e.y (cell.x + cell.width - e.x) e.height] }).set
            (columnIndex + 1) { nc1 with elements := nc1.elements ++
              [Element.mk "ABC123" nc1.x e.y nc1.width e.height] })[columnIndex + 2]? =
          row[columnIndex + 2]? := by
        rw [List.getElem?_set_ne (by omega), List.getElem?_set_ne (by omega)]
      rw [hg2]
      cases row[columnIndex + 2]? <;> rfl
  rw [hproc, hres]
  cases h1 : row[columnIndex + 1]? with
  | none =>
    cases h2 : row[columnIndex + 2]? with
    | none =>
      simp only []
      refine ⟨?_, ?_, ?_, ?_⟩
      · rw [List.getElem?_set_self (by simpa using hlt)]
      · intro nc hnc
        exact Option.noConfusion hnc
      · intro nc hnc
        exact Option.noConfusion hnc
      · simp
    | some nc2 =>
      have hlt2 : columnIndex + 2 < row.length := by
        by_contra hge
        rw [List.getElem?_eq_none (Nat.le_of_not_lt hge)] at h2
        exact Option.noConfusion h2
      simp only []
      refine ⟨?_, ?_, ?_, ?_⟩
      · rw [List.getElem?_set_ne (by omega), List.getElem?_set_self (by simpa using hlt)]
      · intro nc hnc
        exact Option.noConfusion hnc
      · intro nc hnc
        obtain rfl := Option.some.inj hnc
        rw [List.getElem?_set_self (by simpa using hlt2)]
      · simp
  | some nc1 =>
    have hlt1 : columnIndex + 1 < row.length := by
      by_contra hge
      rw [List.getElem?_eq_none (Nat.le_of_not_lt hge)] at h1
      exact Option.noConfusion h1
    cases h2 : row[columnIndex + 2]? with
    | none =>
      simp only []
      refine ⟨?_, ?_, ?_, ?_⟩
      · rw [List.getElem?_set_ne (by omega), List.getElem?_set_self (by simpa using hlt)]
      · intro nc hnc
        obtain rfl := Option.some.inj hnc
        rw [List.getElem?_set_self (by simpa using hlt1)]
      · intro nc hnc
        exact Option.noConfusion hnc
      · simp
    | some nc2 =>
      have hlt2 : columnIndex + 2 < row.length := by
        by_contra hge
        rw [List.getElem?_eq_none (Nat.le_of_not_lt hge)] at h2
        exact Option.noConfusion h2
      simp only []
      refine ⟨?_, ?_, ?_, ?_⟩
      · rw [List.getElem?_set_ne (by omega), List.getElem?_set_ne (by omega),
          List.getElem?_set_self (by simpa using hlt)]
      · intro nc hnc
        obtain rfl := Option.some.inj hnc
        rw [List.getElem?_set_ne (by omega), List.getElem?_set_self (by simpa using hlt1)]
      · intro nc hnc
        obtain rfl := Option.some.inj hnc
        rw [List.getElem?_set_self (by simpa using hlt2)]
      · simp

/-- C7 witness: the routing evaluated on a concrete three-cell row whose first
cell overlaps the assessment header completely and holds the overhang element. -/
theorem overhangSplitter_assessment_routing_witness :
    ((processCellOverhangs (some ⟨0, 0, 10, 10⟩) none none 0
        [⟨0, 0, 10, 10, [⟨"123   ABC123   1/2020/45", 0, 0, 50, 5⟩]⟩,
         ⟨10, 0, 8, 10, []⟩, ⟨18, 0, 8, 10, []⟩])[0]? =
      some ⟨0, 0, 10, 10, [⟨"123", 0, 0, 10, 5⟩]⟩) ∧
    ((processCellOverhangs (some ⟨0, 0, 10, 10⟩) none none 0
        [⟨0, 0, 10, 10, [⟨"123   ABC123   1/2020/45", 0, 0, 50, 5⟩]⟩,
         ⟨10, 0, 8, 10, []⟩, ⟨18, 0, 8, 10, []⟩])[1]? =
      some ⟨10, 0, 8, 10, [⟨"ABC123", 10, 0, 8, 5⟩]⟩) ∧
    ((processCellOverhangs (some ⟨0, 0, 10, 10⟩) none none 0
        [⟨0, 0, 10, 10, [⟨"123   ABC123   1/2020/45", 0, 0, 50, 5⟩]⟩,
         ⟨10, 0, 8, 10, []⟩, ⟨18, 0, 8, 10, []⟩])[2]? =
      some ⟨18, 0, 8, 10, [⟨"1/2020/45", 18, 0, 8, 5⟩]⟩) := by
  have h := overhangSplitter_assessment_routing ⟨0, 0, 10, 10⟩ none none
    [⟨0, 0, 10, 10, [⟨"123   ABC123   1/2020/45", 0, 0, 50, 5⟩]⟩,
     ⟨10, 0, 8, 10, []⟩, ⟨18, 0, 8, 10, []⟩] 0
    ⟨0, 0, 10, 10, [⟨"123   ABC123   1/2020/45", 0, 0, 50, 5⟩]⟩
    ⟨"123   ABC123   1/2020/45", 0, 0, 50, 5⟩ rfl rfl
    (by simp only [contains, Cell.toRect, Element.toRect, decide_eq_false_iff_not]
        intro hc
        norm_num at hc)
    rfl
    (by norm_num [getHorizontalOverlapPercentageOpt, getHorizontalOverlapPercentage,
        Cell.toRect])
  refine ⟨?_, ?_, ?_⟩
  · have h1 := h.1
    norm_num at h1
    exact h1
  · have h2 := h.2.1 ⟨10, 0, 8, 10, []⟩ rfl
    norm_num at h2
    exact h2
  · have h3 := h.2.2.1 ⟨18, 0, 8, 10, []⟩ rfl
    norm_num at h3
    exact h3

/-- C8: a row whose identifier cell's concatenated, trimmed text does not contain
a `digits/digits/digit` pattern never produces a record: the per-row extraction
either skips the row or fails, but never returns a record. -/
theorem extractRow_rejects_malformed_identifier
    (gaz : Gazetteer) (dym : DymFun)
    (applicationNumberCell addressCell descriptionCell : Option Rectangle)
    (url scrapeDate : String) (row : List Cell)
    (hid : ∀ ac, row.find? (fun cell => decide (getHorizontalOverlapPercentageOpt
        (some cell.toRect) applicationNumberCell > 90)) = some ac →
      daTest (jsTrim (joinTexts ac.elements)) = false) :
    ∀ r : Record, extractRow gaz dym applicationNumberCell addressCell descriptionCell
      url scrapeDate row ≠ Except.ok (some r) := by
  intro r
  simp only [extractRow]
  cases hac : row.find? (fun cell => decide (getHorizontalOverlapPercentageOpt
      (some cell.toRect) applicationNumberCell > 90)) with
  | none => simp
  | some ac =>
    cases had : row.find? (fun cell => decide (getHorizontalOverlapPercentageOpt
        (some cell.toRect) addressCell > 90)) with
    | none => simp
    | some adc =>
      have hda := hid ac hac
      simp only [hda, if_pos]
      intro hc
      exact Option.noConfusion (Except.ok.inj hc)

/-- C8 witness: a concrete two-cell row whose identifier cell *is* found (it
coincides with the identifier header) but holds the heading text `"HEADING"`,
which fails the `digits/digits/digit` test: the extraction skips the row
(`Except.ok none`) and in particular emits no record. -/
theorem extractRow_rejects_malformed_identifier_witness :
    (List.find? (fun cell : Cell => decide (getHorizontalOverlapPercentageOpt
        (some cell.toRect) (some ⟨0, 0, 10, 10⟩) > 90))
      [⟨0, 0, 10, 10, [⟨"HEADING", 0, 0, 5, 5⟩]⟩, ⟨10, 0, 10, 10, []⟩] =
      some ⟨0, 0, 10, 10, [⟨"HEADING", 0, 0, 5, 5⟩]⟩) ∧
    daTest (jsTrim (joinTexts [⟨"HEADING", 0, 0, 5, 5⟩])) = false ∧
    extractRow emptyGazetteer dymNone (some ⟨0, 0, 10, 10⟩) (some ⟨10, 0, 10, 10⟩) none
      "" "" [⟨0, 0, 10, 10, [⟨"HEADING", 0, 0, 5, 5⟩]⟩, ⟨10, 0, 10, 10, []⟩] =
      Except.ok none ∧
    extractRow emptyGazetteer dymNone (some ⟨0, 0, 10, 10⟩) (some ⟨10, 0, 10, 10⟩) none
      "" "" [⟨0, 0, 10, 10, [⟨"HEADING", 0, 0, 5, 5⟩]⟩, ⟨10, 0, 10, 10, []⟩] ≠
      Except.ok (some ⟨"HEADING", "", "NO DESCRIPTION PROVIDED", "", CommentUrl, ""⟩) := by
  have hp0 : decide (getHorizontalOverlapPercentageOpt
      (some (⟨0, 0, 10, 10, [⟨"HEADING", 0, 0, 5, 5⟩]⟩ : Cell).toRect)
      (some ⟨0, 0, 10, 10⟩) > 90) = true := by
    norm_num [getHorizontalOverlapPercentageOpt, getHorizontalOverlapPercentage, Cell.toRect]
  have hq0 : decide (getHorizontalOverlapPercentageOpt
      (some (⟨0, 0, 10, 10, [⟨"HEADING", 0, 0, 5, 5⟩]⟩ : Cell).toRect)
      (some ⟨10, 0, 10, 10⟩) > 90) = false := by
    simp only [decide_eq_false_iff_not]
    norm_num [getHorizontalOverlapPercentageOpt, getHorizontalOverlapPercentage, Cell.toRect]
  have hq1 : decide (getHorizontalOverlapPercentageOpt
      (some (⟨10, 0, 10, 10, []⟩ : Cell).toRect)
      (some ⟨10, 0, 10, 10⟩) > 90) = true := by
    norm_num [getHorizontalOverlapPercentageOpt, getHorizontalOverlapPercentage, Cell.toRect]
  have hfind1 : List.find? (fun cell : Cell => decide (getHorizontalOverlapPercentageOpt
      (some cell.toRect) (some ⟨0, 0, 10, 10⟩) > 90))
      [⟨0, 0, 10, 10, [⟨"HEADING", 0, 0, 5, 5⟩]⟩, ⟨10, 0, 10, 10, []⟩] =
      some ⟨0, 0, 10, 10, [⟨"HEADING", 0, 0, 5, 5⟩]⟩ := by
    simp only [List.find?, hp0]
  have hfind2 : List.find? (fun cell : Cell => decide (getHorizontalOverlapPercentageOpt
      (some cell.toRect) (some ⟨10, 0, 10, 10⟩) > 90))
      [⟨0, 0, 10, 10, [⟨"HEADING", 0, 0, 5, 5⟩]⟩, ⟨10, 0, 10, 10, []⟩] =
      some ⟨10, 0, 10, 10, []⟩ := by
    simp only [List.find?, hq0, hq1]
  have hda : daTest (jsTrim (joinTexts [(⟨"HEADING", 0, 0, 5, 5⟩ : Element)])) = false := by
    decide
  refine ⟨hfind1, hda, ?_, ?_⟩
  · simp only [extractRow]
    rw [hfind1, hfind2]
    simp only []
    rw [if_pos hda]
    rfl
  · exact extractRow_rejects_malformed_identifier emptyGazetteer dymNone
      (some ⟨0, 0, 10, 10⟩) (some ⟨10, 0, 10, 10⟩) none "" ""
      [⟨0, 0, 10, 10, [⟨"HEADING", 0, 0, 5, 5⟩]⟩, ⟨10, 0, 10, 10, []⟩]
      (fun ac hac => by
        rw [hfind1] at hac
        obtain rfl := Option.some.inj hac
        exact hda)
      ⟨"HEADING", "", "NO DESCRIPTION PROVIDED", "", CommentUrl, ""⟩

/-- C10: the per-row extraction is total only when the row has a cell overlapping
the identifier header by more than 90% and a cell overlapping the address header
by more than 90%: if either lookup finds no cell, the JavaScript code dereferences
`.elements` of `undefined` and the extraction fails with a type error
(`Except.error`) rather than skipping the row. -/
theorem extractRow_missing_header_error
    (gaz : Gazetteer) (dym : DymFun)
    (applicationNumberCell addressCell descriptionCell : Option Rectangle)
    (url scrapeDate : String) (row : List Cell)
    (h : row.find? (fun cell => decide (getHorizontalOverlapPercentageOpt
        (some cell.toRect) applicationNumberCell > 90)) = none ∨
      row.find? (fun cell => decide (getHorizontalOverlapPercentageOpt
        (some cell.toRect) addressCell > 90)) = none) :
    extractRow gaz dym applicationNumberCell addressCell descriptionCell
      url scrapeDate row = Except.error () := by
  simp only [extractRow]
  rcases h with h | h
  · rw [h]
  · cases hac : row.find? (fun cell => decide (getHorizontalOverlapPercentageOpt
        (some cell.toRect) applicationNumberCell > 90)) with
    | none => rfl
    | some ac =>
      rw [h]

/-- C10 witness: the empty row has neither header cell, and extraction errors. -/
theorem extractRow_missing_header_error_witness :
    extractRow emptyGazetteer dymNone none none none "" "" [] = Except.error () :=
  extractRow_missing_header_error emptyGazetteer dymNone none none none "" "" []
    (Or.inl rfl)

/-- A key that occurs in an association list has a successful lookup. -/
theorem lookup_isSome_of_mem_keys {α : Type} {l : List (String × α)} {k : String}
    (hk : k ∈ l.map (fun p => p.1)) : ∃ v, lookup l k = some v := by
  induction l with
  | nil => simp at hk
  | cons p ps ih =>
    rw [List.map_cons, List.mem_cons] at hk
    by_cases hpk : (p.1 == k) = true
    · refine ⟨p.2, ?_⟩
      unfold lookup
      rw [List.find?_cons_of_pos ps (show (fun q : String × α => q.1 == k) p = true from hpk)]
      rfl
    · rcases hk with hk | hk
      · exact absurd (beq_iff_eq.mpr hk.symm) hpk
      · obtain ⟨v, hv⟩ := ih hk
        refine ⟨v, ?_⟩
        unfold lookup at hv ⊢
        rw [List.find?_cons_of_neg ps
          (show ¬(fun q : String × α => q.1 == k) p = true from hpk)]
        exact hv

/-- Under the fuzzy matcher's contract, the hundred-suburb lookup made from a
matcher result is never `undefined`. -/
theorem hundredLookup_ok (gaz : Gazetteer) {dym : DymFun}
    (hdym : ∀ t s ks r, dym t s ks = some r → r ∈ ks) (t : ℕ) (s : String) :
    ∃ h, hundredLookup gaz (dym t s (gaz.hundredSuburbNames.map (fun p => p.1))) = some h := by
  cases hm : dym t s (gaz.hundredSuburbNames.map (fun p => p.1)) with
  | none => exact ⟨[], rfl⟩
  | some m =>
    unfold hundredLookup
    exact lookup_isSome_of_mem_keys (hdym _ _ _ _ hm)

/-- `filterByHundred2` never errs on a present hundred-suburb list. -/
theorem filterByHundred2_some (sns h : List String) :
    ∃ l, filterByHundred2 sns (some h) = Except.ok l := by
  cases sns with
  | nil => exact ⟨[], rfl⟩
  | cons a as => exact ⟨_, rfl⟩

/-- `filterByHundred3` never errs on a present hundred-suburb list. -/
theorem filterByHundred3_some (sns h : List String) :
    ∃ l, filterByHundred3 sns (some h) = Except.ok l := by
  cases sns with
  | nil => exact ⟨[], rfl⟩
  | cons a as => exact ⟨_, rfl⟩

/-- An exact street match always carries a present suburb list. -/
theorem streetExactTry_suburbNames {gaz : Gazetteer} {tokens : List String} {index : ℕ}
    {fs : FormattedStreet} (h : streetExactTry gaz tokens index = some fs) :
    ∃ sns, fs.suburbNames = some sns := by
  unfold streetExactTry at h
  cases h' : lookup gaz.streetNames (jsJoin " " (sliceLast tokens index)) with
  | none => rw [h'] at h; exact Option.noConfusion h
  | some sns =>
    rw [h'] at h
    obtain rfl := Option.some.inj h
    exact ⟨sns, rfl⟩

/-- Under the fuzzy matcher's contract, a fuzzy street match also carries a
present suburb list. -/
theorem streetFuzzyTry_suburbNames {gaz : Gazetteer} {dym : DymFun}
    (hdym : ∀ t s ks r, dym t s ks = some r → r ∈ ks)
    {tokens : List String} {index : ℕ} {fs : FormattedStreet}
    (h : streetFuzzyTry gaz dym tokens index = some fs) :
    ∃ sns, fs.suburbNames = some sns := by
  unfold streetFuzzyTry at h
  cases hm : dym 1 (jsJoin " " (sliceLast tokens index)) (gaz.streetNames.map (fun p => p.1)) with
  | none => rw [hm] at h; exact Option.noConfusion h
  | some m =>
    rw [hm] at h
    obtain rfl := Option.some.inj h
    exact lookup_isSome_of_mem_keys (hdym _ _ _ _ hm)

/-- Under the fuzzy matcher's contract, any recognised street carries a present
suburb list (the only way `suburbNames` could be `undefined` is a fuzzy match
whose result is not a dictionary key). -/
theorem formatStreet_suburbNames_some {gaz : Gazetteer} {dym : DymFun}
    (hdym : ∀ t s ks r, dym t s ks = some r → r ∈ ks)
    {t : Option String} {fs : FormattedStreet}
    (h : formatStreet gaz dym t = some fs) : ∃ sns, fs.suburbNames = some sns := by
  cases t with
  | none => exact absurd h (by simp [formatStreet])
  | some text =>
    unfold formatStreet at h
    simp only [] at h
    split at h
    · exact Option.noConfusion h
    · split at h
      · obtain rfl := Option.some.inj h
        exact streetExactTry_suburbNames (by assumption)
      · split at h
        · obtain rfl := Option.some.inj h
          exact streetExactTry_suburbNames (by assumption)
        · split at h
          · obtain rfl := Option.some.inj h
            exact streetExactTry_suburbNames (by assumption)
          · split at h
            · obtain rfl := Option.some.inj h
              exact streetFuzzyTry_suburbNames hdym (by assumption)
            · split at h
              · obtain rfl := Option.some.inj h
                exact streetFuzzyTry_suburbNames hdym (by assumption)
              · exact streetFuzzyTry_suburbNames hdym h

/-- A street recognised at `jsIdx tokens i` implies the index was in range. -/
theorem jsIdx_of_formatStreet {gaz : Gazetteer} {dym : DymFun} {tokens : List String}
    {i : ℤ} {fs : FormattedStreet}
    (h : formatStreet gaz dym (jsIdx tokens i) = some fs) :
    0 ≤ i ∧ i.toNat < tokens.length := by
  cases ht : jsIdx tokens i with
  | none =>
    rw [ht] at h
    exact absurd h (by simp [formatStreet])
  | some t =>
    have hi : ¬i < 0 := by
      intro hneg
      unfold jsIdx at ht
      rw [if_pos hneg] at ht
      exact Option.noConfusion ht
    have hlt : i.toNat < tokens.length := by
      unfold jsIdx at ht
      rw [if_neg hi] at ht
      by_contra hge
      rw [List.getElem?_eq_none (Nat.le_of_not_lt hge)] at ht
      exact Option.noConfusion ht
    exact ⟨not_lt.mp hi, hlt⟩

/-- A non-negative in-range JavaScript index succeeds. -/
theorem jsIdx_some_of_lt {l : List String} {i : ℤ} (h0 : 0 ≤ i)
    (hlt : i.toNat < l.length) : ∃ t, jsIdx l i = some t := by
  unfold jsIdx
  rw [if_neg (not_lt.mpr h0)]
  exact ⟨l[i.toNat], List.getElem?_eq_getElem hlt⟩

/-- The two-token suburb resolution never errs when the street's suburb list is
present, the fuzzy matcher obeys its contract, and the token list is non-empty. -/
theorem resolveSuburb2_ok (gaz : Gazetteer) (dym : DymFun)
    (hdym : ∀ t s ks r, dym t s ks = some r → r ∈ ks)
    (tokens : List String) (fs : FormattedStreet) (sns : List String)
    (hsns : fs.suburbNames = some sns) (hlen : 1 ≤ tokens.length) :
    ∃ s, resolveSuburb2 gaz dym tokens fs = Except.ok s := by
  obtain ⟨t1, ht1⟩ := jsIdx_some_of_lt (l := tokens) (i := (tokens.length : ℤ) - 1)
    (by omega) (by omega)
  unfold resolveSuburb2
  rw [ht1]
  simp only [hsns]
  obtain ⟨h, hh⟩ := hundredLookup_ok gaz hdym 2
    (if jsStartsWith (jsTrim t1) "HD " then jsTrim (jsDropStr (jsTrim t1) 3) else jsTrim t1)
  rw [hh]
  obtain ⟨l, hl⟩ := filterByHundred2_some sns h
  rw [hl]
  exact ⟨_, rfl⟩

/-- The three/four-token suburb resolution never errs when the street's suburb
list is present, the fuzzy matcher obeys its contract, and there are at least two
tokens. -/
theorem resolveSuburb34_ok (gaz : Gazetteer) (dym : DymFun)
    (hdym : ∀ t s ks r, dym t s ks = some r → r ∈ ks)
    (tokens : List String) (streetNameIndex : ℕ) (fs : FormattedStreet) (sns : List String)
    (hsns : fs.suburbNames = some sns) (hlen : 2 ≤ tokens.length) :
    ∃ s, resolveSuburb34 gaz dym tokens streetNameIndex fs = Except.ok s := by
  obtain ⟨t1, ht1⟩ := jsIdx_some_of_lt (l := tokens) (i := (tokens.length : ℤ) - 1)
    (by omega) (by omega)
  obtain ⟨t2, ht2⟩ := jsIdx_some_of_lt (l := tokens) (i := (tokens.length : ℤ) - 2)
    (by omega) (by omega)
  unfold resolveSuburb34
  rw [ht1, ht2]
  simp only [hsns]
  obtain ⟨h1, hh1⟩ := hundredLookup_ok gaz hdym 2
    (if jsStartsWith (jsTrim t1) "HD " then jsTrim (jsDropStr (jsTrim t1) 3) else jsTrim t1)
  rw [hh1]
  obtain ⟨l1, hl1⟩ := filterByHundred3_some sns h1
  rw [hl1]
  cases hb : jsStartsWith (jsTrim t2) "HD " with
  | false =>
    simp only [hb, Bool.false_eq_true, if_false]
    obtain ⟨l2, hl2⟩ := filterByHundred3_some l1 []
    rw [hl2]
    exact ⟨_, rfl⟩
  | true =>
    simp only [hb, if_true]
    obtain ⟨h2, hh2⟩ := hundredLookup_ok gaz hdym 2 (jsTrim (jsDropStr (jsTrim t2) 3))
    rw [hh2]
    obtain ⟨l2, hl2⟩ := filterByHundred3_some l1 h2
    rw [hl2]
    exact ⟨_, rfl⟩

/-- The street-position dispatch never errs under the fuzzy matcher's contract. -/
theorem formatAddressTokens_ok (gaz : Gazetteer) (dym : DymFun)
    (hdym : ∀ t s ks r, dym t s ks = some r → r ∈ ks)
    (tokens : List String) (address : String) :
    ∃ s, formatAddressTokens gaz dym tokens address = Except.ok s := by
  unfold formatAddressTokens
  cases h3 : formatStreet gaz dym (jsIdx tokens ((tokens.length : ℤ) - 3)) with
  | some fs =>
    obtain ⟨h0, hlt⟩ := jsIdx_of_formatStreet h3
    obtain ⟨sns, hsns⟩ := formatStreet_suburbNames_some hdym h3
    exact resolveSuburb34_ok gaz dym hdym tokens 3 fs sns hsns (by omega)
  | none =>
    cases h2 : formatStreet gaz dym (jsIdx tokens ((tokens.length : ℤ) - 2)) with
    | some fs =>
      obtain ⟨h0, hlt⟩ := jsIdx_of_formatStreet h2
      obtain ⟨sns, hsns⟩ := formatStreet_suburbNames_some hdym h2
      exact resolveSuburb2_ok gaz dym hdym tokens fs sns hsns (by omega)
    | none =>
      cases h4 : formatStreet gaz dym (jsIdx tokens ((tokens.length : ℤ) - 4)) with
      | some fs =>
        obtain ⟨h0, hlt⟩ := jsIdx_of_formatStreet h4
        obtain ⟨sns, hsns⟩ := formatStreet_suburbNames_some hdym h4
        exact resolveSuburb34_ok gaz dym hdym tokens 4 fs sns hsns (by omega)
      | none => exact ⟨address, rfl⟩

/-- C9 (amended): provided the fuzzy matcher returns only keys of the dictionary
it is given (the documented contract of the external matcher), the address
normalizer never throws; and for every input address, if none of the tried
street-token positions (third-to-last, then second-to-last, then fourth-to-last
comma token of the canonicalized address) yields a recognized street, the
normalizer returns the canonicalized address — the address after the terrace
abbreviation replacements and multi-address de-interleaving, which equals the
input exactly when those transformations do not change it.  (As stated the claim
fails: the code does not return the *input* unchanged when the canonicalizations
alter it.) -/
theorem formatAddress_graceful (gaz : Gazetteer) (dym : DymFun)
    (hdym : ∀ t s ks r, dym t s ks = some r → r ∈ ks) :
    (∀ address : String, ∃ s, formatAddress gaz dym address = Except.ok s) ∧
    (∀ address : String,
      formatStreet gaz dym (jsIdx (jsSplit (canonicalizeAddress address) ",")
        (((jsSplit (canonicalizeAddress address) ",").length : ℤ) - 3)) = none →
      formatStreet gaz dym (jsIdx (jsSplit (canonicalizeAddress address) ",")
        (((jsSplit (canonicalizeAddress address) ",").length : ℤ) - 2)) = none →
      formatStreet gaz dym (jsIdx (jsSplit (canonicalizeAddress address) ",")
        (((jsSplit (canonicalizeAddress address) ",").length : ℤ) - 4)) = none →
      formatAddress gaz dym address = Except.ok (canonicalizeAddress address)) := by
  constructor
  · intro address
    unfold formatAddress
    exact formatAddressTokens_ok gaz dym hdym _ _
  · intro address h3 h2 h4
    unfold formatAddress
    simp only []
    unfold formatAddressTokens
    rw [h3, h2, h4]

/-- C9 witness: an address that the terrace-abbreviation expansion changes and
for which no street position matches (empty gazetteer) comes back canonicalized
and without an error: the input is not returned unchanged, the canonicalized
address is. -/
theorem formatAddress_graceful_witness :
    canonicalizeAddress "999 NOWHERE TCE NTH, NOPLACE" =
      "999 NOWHERE TERRACE NORTH, NOPLACE" ∧
    formatAddress emptyGazetteer dymNone "999 NOWHERE TCE NTH, NOPLACE" =
      Except.ok (canonicalizeAddress "999 NOWHERE TCE NTH, NOPLACE") :=
  ⟨by decide,
    (formatAddress_graceful emptyGazetteer dymNone
        (fun _ _ _ _ h => Option.noConfusion h)).2
      "999 NOWHERE TCE NTH, NOPLACE" (by decide) (by decide) (by decide)⟩

/-- C9 counterexample: an address containing the abbreviation `" TCE NTH"` for
which no street position matches is *not* returned unchanged; the code returns
the address with the terrace replacement applied. -/
theorem formatAddress_changes_unmatched_input_counterexample :
    (formatStreet emptyGazetteer dymNone
      (jsIdx (jsSplit (tceReplace "999 NOWHERE TCE NTH, NOPLACE") ",")
        (((jsSplit (tceReplace "999 NOWHERE TCE NTH, NOPLACE") ",").length : ℤ) - 3)) =
          none) ∧
    (formatStreet emptyGazetteer dymNone
      (jsIdx (jsSplit (tceReplace "999 NOWHERE TCE NTH, NOPLACE") ",")
        (((jsSplit (tceReplace "999 NOWHERE TCE NTH, NOPLACE") ",").length : ℤ) - 2)) =
          none) ∧
    (formatStreet emptyGazetteer dymNone
      (jsIdx (jsSplit (tceReplace "999 NOWHERE TCE NTH, NOPLACE") ",")
        (((jsSplit (tceReplace "999 NOWHERE TCE NTH, NOPLACE") ",").length : ℤ) - 4)) =
          none) ∧
    formatAddress emptyGazetteer dymNone "999 NOWHERE TCE NTH, NOPLACE" =
      Except.ok "999 NOWHERE TERRACE NORTH, NOPLACE" ∧
    ("999 NOWHERE TERRACE NORTH, NOPLACE" : String) ≠ "999 NOWHERE TCE NTH, NOPLACE" := by
  refine ⟨by decide, by decide, by decide, rfl, by decide⟩

end Scraper
